import Mathlib

/-!
Verification of the Fantasy_BBall repository against its specification.

Shallow embedding of the relevant Python modules:
  * `src/opponent_analyzer.py`  — category gap computation and classification
  * `src/player_evaluator.py`   — games-remaining multiplier
  * `src/player_fetcher.py`     — healthy-player filter (used by the orchestrator)
  * `src/matchup_scheduler.py`  — week fallback arithmetic, Sunday look-ahead,
                                  optimal-matchup fallback
  * `src/nba_stats_fetcher.py`  — player match cascade and trigram similarity

Python floats are modelled by `ℚ` (all constants in these modules are short
decimal literals and no claim sits on a float-rounding boundary), Python ints
by `ℕ`/`ℤ`, dictionaries by association lists, and fallible code by `Option`.
-/

namespace FantasyBBall

/-! ## Python-style rounding

`round(x, n)` in Python rounds half to even.  None of the claims sit on a
half-way tie, but we model the banker-rounding semantics faithfully. -/

/-- Round a rational to the nearest integer, ties to even (Python `round`). -/
def roundHalfEven (x : ℚ) : ℤ :=
  let f : ℤ := ⌊x⌋
  let frac : ℚ := x - f
  if frac < 1/2 then f
  else if frac > 1/2 then f + 1
  else if f % 2 = 0 then f else f + 1

/-- Python `round(x, 1)`. -/
def roundTo1 (x : ℚ) : ℚ := (roundHalfEven (10 * x) : ℚ) / 10

/-- Python `round(x, 2)`. -/
def roundTo2 (x : ℚ) : ℚ := (roundHalfEven (100 * x) : ℚ) / 100

/-! ## Opponent Analyzer (`opponent_analyzer.py`)

`OpponentAnalyzer.categories` and `_calculate_category_gaps` /
`_classify_categories`, lines 20 and 365–456 of the source. -/

/-- `self.categories` from `OpponentAnalyzer.__init__`. -/
def categories : List String :=
  ["FG%", "FT%", "3PTM", "PTS", "REB", "AST", "ST", "BLK", "TO"]

/-- `my_stats.get(cat, 0)` — dictionary lookup with default 0. -/
def statGet (stats : List (String × ℚ)) (cat : String) : ℚ :=
  match stats.lookup cat with
  | some v => v
  | none => 0

/-- One record of the dictionary returned by `_calculate_category_gaps`. -/
structure GapRecord where
  myValue : ℚ
  oppValue : ℚ
  gapPct : ℚ
  status : String
  deriving Repr, DecidableEq

/-- The raw (pre-rounding) gap percentage computed in
`_calculate_category_gaps` for a category with non-zero opponent value:
sign-flipped for TO (lower is better), `(my − opp) / opp × 100` otherwise. -/
def rawGap (cat : String) (myVal oppVal : ℚ) : ℚ :=
  if cat = "TO" then ((oppVal - myVal) / oppVal) * 100
  else ((myVal - oppVal) / oppVal) * 100

/-- The status string chosen in `_calculate_category_gaps` from the raw gap. -/
def gapStatus (gapPct : ℚ) : String :=
  if gapPct > 15 then "DOMINATING"
  else if gapPct > 0 then "WINNING"
  else if gapPct > -15 then "COMPETITIVE"
  else "LOSING"

/-- Loop body of `_calculate_category_gaps` for one category: the zero-opponent
guard returns a gap of 0.0 with status UNKNOWN (the division is only reached
when `opp_val ≠ 0`); otherwise the raw gap is computed, the status derived from
the unrounded gap, and the stored values rounded (2 resp. 1 decimals). -/
def gapRecord (cat : String) (myVal oppVal : ℚ) : GapRecord :=
  if oppVal = 0 then
    { myValue := myVal, oppValue := oppVal, gapPct := 0, status := "UNKNOWN" }
  else
    let g := rawGap cat myVal oppVal
    { myValue := roundTo2 myVal
      oppValue := roundTo2 oppVal
      gapPct := roundTo1 g
      status := gapStatus g }

/-- `_calculate_category_gaps(my_stats, opp_stats)`: one `GapRecord` per
category, in category order. -/
def calculateCategoryGaps (myStats oppStats : List (String × ℚ)) :
    List (String × GapRecord) :=
  categories.map (fun cat => (cat, gapRecord cat (statGet myStats cat) (statGet oppStats cat)))

/-- One entry of a `_classify_categories` bucket. -/
structure ClassEntry where
  category : String
  gap : ℚ
  strategy : String
  deriving Repr, DecidableEq

/-- The four buckets built by `_classify_categories`. -/
structure Classification where
  dominating : List ClassEntry
  winnable : List ClassEntry
  competitive : List ClassEntry
  losing : List ClassEntry
  deriving Repr, DecidableEq

/-- `_classify_categories(gaps, dominant_threshold=15.0, winnable_threshold=15.0)`:
each category goes through the `if/elif/else` chain on `gap_pct` and is appended
to exactly one bucket, with a fixed strategy label per bucket. -/
def classifyCategories (gaps : List (String × GapRecord))
    (dominantThreshold : ℚ := 15) (winnableThreshold : ℚ := 15) : Classification :=
  match gaps with
  | [] => { dominating := [], winnable := [], competitive := [], losing := [] }
  | (cat, data) :: rest =>
    let r := classifyCategories rest dominantThreshold winnableThreshold
    let g := data.gapPct
    if g ≥ dominantThreshold then
      { r with dominating := { category := cat, gap := g, strategy := "PROTECT" } :: r.dominating }
    else if g ≥ 0 ∧ g < dominantThreshold then
      { r with winnable := { category := cat, gap := g, strategy := "TARGET" } :: r.winnable }
    else if g < 0 ∧ g > -winnableThreshold then
      { r with competitive := { category := cat, gap := g, strategy := "IMPROVE" } :: r.competitive }
    else
      { r with losing := { category := cat, gap := g, strategy := "PUNT" } :: r.losing }

/-! ## Player Evaluator (`player_evaluator.py`)

`PlayerEvaluator.calculate_games_multiplier`, lines 193–231.  The tier
thresholds come from `__init__`: `TRASH_THRESHOLD = 30`,
`BORDERLINE_THRESHOLD = 45`. -/

/-- `PlayerEvaluator.TRASH_THRESHOLD`. -/
def TRASH_THRESHOLD : ℚ := 30

/-- `PlayerEvaluator.BORDERLINE_THRESHOLD`. -/
def BORDERLINE_THRESHOLD : ℚ := 45

/-- `calculate_games_multiplier(player, quality_score)` where `games` is
`player.get('games_remaining', 0)` (a non-negative game count). -/
def calculateGamesMultiplier (games : ℕ) (qualityScore : ℚ) : ℚ :=
  if qualityScore < TRASH_THRESHOLD then 1
  else if qualityScore < BORDERLINE_THRESHOLD then
    if games ≤ 2 then 1
    else if games = 3 then 105/100
    else 110/100
  else
    if games ≤ 2 then 1
    else if games = 3 then 115/100
    else min (130/100) (1 + ((games : ℚ) - 2) * (15/100))

/-! ## Player Fetcher healthy filter (`player_fetcher.py` / `ai_analyzer.py`)

`PlayerFetcher.filter_healthy_players`, lines 315–333, which is the filter the
orchestrator applies in `AIAnalyzer.fetch_live_available_players` (line 536:
`players = self.player_fetcher.filter_healthy_players(all_players)`). -/

/-- The fields of a fetched player relevant to health filtering.
`injuryStatus = none` models a missing/None `injury_status`. -/
structure FetchedPlayer where
  name : String
  injuryStatus : Option String
  deriving Repr, DecidableEq

/-- Python truthiness of the `injury_status` value: `not injury` is true for
`None` and for the empty string. -/
def injuryFalsy : Option String → Bool
  | none => true
  | some s => s = ""

/-- `PlayerFetcher.filter_healthy_players(players)`: keep a player iff
`not injury or injury == ''`, i.e. iff the status is absent or empty. -/
def filterHealthyPlayers (players : List FetchedPlayer) : List FetchedPlayer :=
  players.filter (fun p => injuryFalsy p.injuryStatus ∨ p.injuryStatus = some "")

/-- Modelled from the spec (for comparison with the code): the claimed
injury-keyword substring filter over {OUT, O, INJ, IL, GTD, DTD} — a player is
removed iff its injury status contains one of those keywords as a substring.
No such filter exists in the repository's free-agent pipeline. -/
def specKeywordFilter (players : List FetchedPlayer) : List FetchedPlayer :=
  let keywords := ["OUT", "O", "INJ", "IL", "GTD", "DTD"]
  players.filter (fun p =>
    match p.injuryStatus with
    | none => true
    | some s => ¬ keywords.any (fun k => (k.toList).IsInfix s.toList))

/-! ## Matchup Scheduler (`matchup_scheduler.py`)

Date arithmetic is modelled through proleptic-Gregorian ordinal day numbers,
exactly as Python's `datetime.toordinal()`: the difference of two ordinals is
`(d1 − d2).days` for midnight-anchored datetimes. -/

/-- Gregorian leap year test. -/
def isLeap (y : ℕ) : Bool := y % 4 = 0 ∧ (y % 100 ≠ 0 ∨ y % 400 = 0)

/-- Days before the first of month `m` in a non-leap year. -/
def daysBeforeMonth : ℕ → ℕ
  | 1 => 0 | 2 => 31 | 3 => 59 | 4 => 90 | 5 => 120 | 6 => 151
  | 7 => 181 | 8 => 212 | 9 => 243 | 10 => 273 | 11 => 304 | 12 => 334
  | _ => 0

/-- `datetime(y, m, d).toordinal()`: days since 0001-01-01 (which is day 1). -/
def toOrdinal (y m d : ℕ) : ℕ :=
  365 * (y - 1) + (y - 1) / 4 - (y - 1) / 100 + (y - 1) / 400
    + daysBeforeMonth m + (if 2 < m ∧ isLeap y then 1 else 0) + d

/-- `constants.SEASON_START_DATE` from `constants.py` line 34 (year, month,
day).  Note: `matchup_scheduler.py` never imports this constant. -/
def SEASON_START_DATE : ℕ × ℕ × ℕ := (2024, 10, 21)

/-- The final date-math fallback of `MatchupScheduler.get_current_week`
(lines 212–228), as a function of `today`'s ordinal day number:
`season_start = datetime(2025, 10, 21)`; before the season start the week is 1;
otherwise `max(1, days_since_start // 7 + 1)` capped at 23.
(`today < season_start` on datetimes coincides with the ordinal comparison
because `season_start` is a midnight instant, and `(today − season_start).days`
for `today ≥ season_start` is exactly the ordinal difference.) -/
def getCurrentWeekFallback (todayOrd : ℕ) : ℕ :=
  let seasonStart := toOrdinal 2025 10 21
  if todayOrd < seasonStart then 1
  else
    let daysSinceStart := todayOrd - seasonStart
    min (max 1 (daysSinceStart / 7 + 1)) 23

/-- Modelled from the spec (for comparison with the code): the claimed
fallback formula `max(1, (today − season_start_date).days // 7 + 1)` clamped to
[1, 23], anchored at the configured season start date 2024-10-21.  Integer
division on `ℤ` is Euclidean and therefore agrees with Python's floor division
for the positive divisor 7. -/
def claimedFallbackWeek (todayOrd : ℕ) : ℕ :=
  (min 23 (max 1 (((todayOrd : ℤ) - (toOrdinal 2024 10 21 : ℤ)) / 7 + 1))).toNat

/-- Wall-clock instant in the scheduler's configured timezone.  Python's
`weekday()` numbering: Monday = 0, …, Sunday = 6. -/
structure PyDateTime where
  weekday : ℕ
  hour : ℕ
  minute : ℕ
  deriving Repr, DecidableEq

/-- `MatchupScheduler.is_sunday(date)` (lines 70–82): `weekday() == 6`. -/
def isSunday (date : PyDateTime) : Bool := date.weekday = 6

/-- `MatchupScheduler.should_look_ahead(date, cutoff_hour)` (lines 230–259):
false unless the date is a Sunday; then true iff `date.hour >= cutoff_hour`.
(The `tzinfo` replacement on a naive datetime does not change the wall-clock
fields, so it is invisible in this model.) -/
def shouldLookAhead (date : PyDateTime) (cutoffHour : ℕ) : Bool :=
  if ¬ isSunday date then false
  else if date.hour ≥ cutoffHour then true
  else false

/-! ## Yahoo JSON payloads

A minimal model of the JSON values the scheduler's parsing code traverses:
dictionaries (insertion-ordered association lists), lists, strings, integers
and `null`. -/

/-- A Yahoo API JSON value. -/
inductive YVal where
  | str : String → YVal
  | num : Int → YVal
  | list : List YVal → YVal
  | dict : List (String × YVal) → YVal
  | null : YVal
  deriving Repr

/-- Dictionary lookup, `d.get(key)` — `none` both for a missing key and for a
non-dictionary receiver. -/
def YVal.get : YVal → String → Option YVal
  | .dict entries, key => entries.lookup key
  | _, _ => none

/-- Python `key in value` for the shapes that occur in matchup payloads:
key membership for dictionaries, element membership for lists of strings. -/
def YVal.hasKey : YVal → String → Bool
  | .dict entries, key => entries.any (fun e => e.1 = key)
  | .list items, key => items.any (fun it => match it with
      | .str s => s = key
      | _ => false)
  | _, _ => false

/-- Python truthiness of a JSON value (`if team_key:`). -/
def YVal.truthy : YVal → Bool
  | .str s => s ≠ ""
  | .num n => n ≠ 0
  | .list [] => false
  | .list (_ :: _) => true
  | .dict [] => false
  | .dict (_ :: _) => true
  | .null => false

/-- Python `value != some_string`: a string compares by contents, any
non-string value is unequal to a string. -/
def YVal.neqStr : YVal → String → Bool
  | .str t, s => t ≠ s
  | _, _ => true

/-- `isinstance(v, list)`. -/
def YVal.isList : YVal → Bool
  | .list _ => true
  | _ => false

/-! ## `parse_matchup_info` (`matchup_scheduler.py`, lines 390–449) -/

/-- The dictionary returned by `parse_matchup_info`: week bounds and status
are `.get` results; the opponent fields stay `None` unless a team with a
truthy key different from `my_team_key` is found, in which case `opponent`
additionally records the `(team_key, team_name)` pair. -/
structure ParsedMatchupInfo where
  week : Option YVal
  weekStart : Option YVal
  weekEnd : Option YVal
  status : Option YVal
  opponentName : Option YVal
  opponentKey : Option YVal
  opponent : Option (Option YVal × Option YVal)

/-- Inner scan of `team_info_list`: the last `team_key` and last `name` item
win (the source overwrites on each dictionary that has the key). -/
def scanTeamInfo (items : List YVal) : Option YVal × Option YVal :=
  items.foldl (fun (acc : Option YVal × Option YVal) it =>
    match it with
    | .dict _ =>
      let tk := match it.get "team_key" with | some v => some v | none => acc.1
      let tn := match it.get "name" with | some v => some v | none => acc.2
      (tk, tn)
    | _ => acc) (none, none)

/-- Body of the `for team_idx in ['0', '1']` loop for one index.  Outcomes:
`.error ()` models an uncaught Python exception (e.g. `teams[team_idx]` on a
non-dictionary, or the unguarded `['team']` raising `KeyError`); `.ok none`
is `continue`; `.ok (some (tk, tn))` is an opponent found (which `break`s). -/
def processTeamIdx (teams : YVal) (idx : String) (myTeamKey : String) :
    Except Unit (Option (Option YVal × Option YVal)) :=
  if ¬ teams.hasKey idx then .ok none
  else
    match teams with
    | .dict entries =>
      match entries.lookup idx with
      | none => .error ()
      | some teamEntry =>
        match teamEntry.get "team" with
        | none => .error ()   -- KeyError on teams[team_idx]['team']
        | some teamData =>
          match teamData with
          | .list (first :: _) =>
            match first with
            | .list infoItems =>
              let (tk, tn) := scanTeamInfo infoItems
              match tk with
              | some tkv =>
                if tkv.truthy ∧ tkv.neqStr myTeamKey then .ok (some (tk, tn))
                else .ok none
              | none => .ok none
            | _ => .ok none   -- team_info_list not a list: continue
          | _ => .ok none     -- team_data not a non-empty list: continue
    | _ => .error ()          -- indexing a non-dictionary with a string key

/-- `parse_matchup_info(matchup_raw, my_team_key)`.  `none` models an uncaught
exception from the malformed-payload paths of `processTeamIdx`. -/
def parseMatchupInfo (raw : YVal) (myTeamKey : String) : Option ParsedMatchupInfo :=
  let base : ParsedMatchupInfo :=
    { week := raw.get "week", weekStart := raw.get "week_start"
      weekEnd := raw.get "week_end", status := raw.get "status"
      opponentName := none, opponentKey := none, opponent := none }
  let withTeams : Except Unit ParsedMatchupInfo :=
    if raw.hasKey "0" then
      match raw.get "0" with
      | some zero =>
        if zero.hasKey "teams" then
          match zero.get "teams" with
          | some teams =>
            match processTeamIdx teams "0" myTeamKey with
            | .error () => .error ()
            | .ok (some (tk, tn)) =>
              .ok { base with opponentName := tn, opponentKey := tk, opponent := some (tk, tn) }
            | .ok none =>
              match processTeamIdx teams "1" myTeamKey with
              | .error () => .error ()
              | .ok (some (tk, tn)) =>
                .ok { base with opponentName := tn, opponentKey := tk, opponent := some (tk, tn) }
              | .ok none => .ok base
          | none => .ok base
        else .ok base
      | none => .ok base
    else .ok base
  match withTeams with
  | .ok info => some info
  | .error () => none

/-! ## `get_optimal_matchup` (`matchup_scheduler.py`, lines 451–518) -/

/-- The network-dependent context of a scheduler call: the current week as
resolved by the `get_current_week` cascade, and `get_matchup_for_week` as a
function from week number to an optional raw matchup payload. -/
structure SchedulerEnv where
  currentWeek : ℕ
  fetch : ℕ → Option YVal

/-- `MatchupScheduler.get_target_week` (lines 261–295): the current week, plus
one when `should_look_ahead` holds (the debug branch only logs). -/
def getTargetWeek (env : SchedulerEnv) (date : PyDateTime) (cutoffHour : ℕ) : ℕ :=
  if shouldLookAhead date cutoffHour then env.currentWeek + 1 else env.currentWeek

/-- The dictionary returned by `get_optimal_matchup`.  The error result has no
`current_date` key, modelled by `currentDate = none`. -/
structure OptimalMatchupResult where
  week : ℕ
  isLookahead : Bool
  currentDate : Option PyDateTime
  matchup : Option ParsedMatchupInfo
  error : Option String

/-- `MatchupScheduler.get_optimal_matchup(team_key, date, cutoff_hour)`:
fetch the target week; if that fails while looking ahead, drop back to the
previous week and clear the look-ahead flag; if the (possibly retried) fetch
still failed, return the error result; otherwise parse and return.  `none`
models an uncaught exception from `parse_matchup_info`. -/
def getOptimalMatchup (env : SchedulerEnv) (date : PyDateTime) (cutoffHour : ℕ)
    (teamKey : String) : Option OptimalMatchupResult :=
  let targetWeek := getTargetWeek env date cutoffHour
  let isLookahead := shouldLookAhead date cutoffHour
  let raw := env.fetch targetWeek
  let fallback : ℕ × Bool × Option YVal :=
    match raw, isLookahead with
    | none, true => (targetWeek - 1, false, env.fetch (targetWeek - 1))
    | _, _ => (targetWeek, isLookahead, raw)
  match fallback with
  | (week, look, none) =>
    some { week := week, isLookahead := look, currentDate := none
           matchup := none, error := some "Could not fetch matchup data" }
  | (week, look, some matchupRaw) =>
    match parseMatchupInfo matchupRaw teamKey with
    | none => none
    | some parsed =>
      some { week := week, isLookahead := look, currentDate := some date
             matchup := some parsed, error := none }

/-! ## NBA Stats Fetcher (`nba_stats_fetcher.py`)

`match_player_with_debug` (lines 238–334), `_calculate_name_similarity`
(lines 336–363) and `_names_similar` (lines 365–384).  Only the fields the
match cascade reads (`name`, `team`, `games_played`) are carried; the cache
is modelled by passing `nba_stats` explicitly, as the source does when a
pre-fetched dictionary is supplied. -/

/-- The apostrophe character (written via its code point to keep the source
free of quote-literal pitfalls). -/
def apostropheChar : Char := Char.ofNat 39

/-- Python `s.lower()` (ASCII names). -/
def sLower (s : String) : String := ⟨s.data.map Char.toLower⟩

/-- Python `s.strip()`: remove leading and trailing whitespace. -/
def sStrip (s : String) : String :=
  ⟨((s.data.dropWhile Char.isWhitespace).reverse.dropWhile Char.isWhitespace).reverse⟩

/-- `name.replace('.', '').replace('-', '').replace("'", '')` from
`_calculate_name_similarity`. -/
def removePunct (s : String) : String :=
  ⟨s.data.filter (fun c => c ≠ '.' ∧ c ≠ '-' ∧ c ≠ apostropheChar)⟩

/-- `name.replace('.', '').replace(' ', '').replace('-', '')` from
`_names_similar` (note: the apostrophe is not removed there). -/
def removePunctAndSpace (s : String) : String :=
  ⟨s.data.filter (fun c => c ≠ '.' ∧ c ≠ ' ' ∧ c ≠ '-')⟩

/-- The character trigrams of a padded string, in order of occurrence. -/
def trigramList : List Char → List (Char × Char × Char)
  | a :: b :: c :: rest => (a, b, c) :: trigramList (b :: c :: rest)
  | _ => []

/-- `get_trigrams(s)` from `_calculate_name_similarity`: pad with one space on
each side, collect the set of character trigrams (deduplicated). -/
def getTrigrams (s : String) : List (Char × Char × Char) :=
  (trigramList (' ' :: s.data ++ [' '])).dedup

/-- `_calculate_name_similarity(name1, name2)`: 1.0 for equality after
punctuation stripping and lower-casing, else the Jaccard similarity of the
trigram sets. -/
def calculateNameSimilarity (name1 name2 : String) : ℚ :=
  let clean1 := sLower (removePunct name1)
  let clean2 := sLower (removePunct name2)
  if clean1 = clean2 then 1
  else
    let t1 := getTrigrams clean1
    let t2 := getTrigrams clean2
    if t1 = [] ∨ t2 = [] then 0
    else
      let inter := (t1.filter (fun g => g ∈ t2)).length
      let union := ((t1 ++ t2).dedup).length
      if union > 0 then (inter : ℚ) / (union : ℚ) else 0

/-- Maximal non-whitespace runs of a character list (accumulator holds the
current word reversed). -/
def wordsAux : List Char → List Char → List (List Char)
  | [], [] => []
  | [], acc => [acc.reverse]
  | c :: rest, acc =>
    if c.isWhitespace then
      match acc with
      | [] => wordsAux rest []
      | _ => acc.reverse :: wordsAux rest []
    else wordsAux rest (c :: acc)

/-- Python `s.split()`: split on whitespace runs, discarding empty pieces. -/
def splitWords (s : String) : List String :=
  (wordsAux s.data []).map (fun w => (⟨w⟩ : String))

/-- `_names_similar(name1, name2)`: equal after removing periods, spaces and
hyphens, or the word set of one name is a subset of the other's. -/
def namesSimilar (name1 name2 : String) : Bool :=
  if removePunctAndSpace name1 = removePunctAndSpace name2 then true
  else
    let parts1 := splitWords name1
    let parts2 := splitWords name2
    if parts1.all (fun w => parts2.contains w) ∨ parts2.all (fun w => parts1.contains w)
    then true else false

/-- One record of the `fetch_season_leaders` dictionary (only the fields the
match cascade reads). -/
structure NBARecord where
  name : String
  team : String
  gamesPlayed : ℕ
  deriving Repr, DecidableEq

/-- An entry of the debug candidate lists (`name_matches` carry games played,
`similar_names` additionally a similarity, `team_matches` neither). -/
structure CandidateEntry where
  name : String
  team : String
  similarity : Option ℚ
  gamesPlayed : Option ℕ
  deriving Repr, DecidableEq

/-- The debug dictionary of `match_player_with_debug`. -/
structure MatchDebugInfo where
  yahooName : String
  yahooTeam : String
  reason : Option String
  suggestions : List CandidateEntry
  closestMatches : List CandidateEntry
  deriving Repr, DecidableEq

/-- Stable descending insertion by similarity (Python
`sorted(similar_names, key=lambda x: x['similarity'], reverse=True)`,
which is stable among equal keys). -/
def insertBySimDesc (x : CandidateEntry) : List CandidateEntry → List CandidateEntry
  | [] => [x]
  | y :: ys =>
    if (y.similarity.getD 0) ≥ (x.similarity.getD 0) then y :: insertBySimDesc x ys
    else x :: y :: ys

/-- Stable descending sort by similarity. -/
def sortBySimDesc (l : List CandidateEntry) : List CandidateEntry :=
  l.foldl (fun acc x => insertBySimDesc x acc) []

/-- State of the scan over `nba_stats.items()`: the three candidate
accumulators of `match_player_with_debug`. -/
structure ScanAcc where
  nameMatches : List CandidateEntry
  teamMatches : List CandidateEntry
  similarNames : List CandidateEntry

/-- The per-item body of the `for nba_key, nba_data in nba_stats.items()`
loop, with early returns for a case-insensitive or token-subset match on the
same team.  `Sum.inl` is an early return, `Sum.inr` the updated accumulators. -/
def scanStep (yLower tLower : String) (acc : ScanAcc) (rec : NBARecord) :
    (NBARecord × String) ⊕ ScanAcc :=
  let nbaName := sStrip (sLower rec.name)
  let nbaTeam := sStrip (sLower rec.team)
  if nbaName = yLower ∧ nbaTeam = tLower then
    .inl (rec, "CASE_INSENSITIVE_MATCH")
  else
    let acc :=
      if nbaName = yLower then
        { acc with nameMatches := acc.nameMatches ++
            [{ name := rec.name, team := rec.team, similarity := none,
               gamesPlayed := some rec.gamesPlayed }] }
      else acc
    let acc :=
      if nbaTeam = tLower then
        let sim := calculateNameSimilarity yLower nbaName
        let acc :=
          if sim > 7/10 then
            { acc with similarNames := acc.similarNames ++
                [{ name := rec.name, team := rec.team, similarity := some sim,
                   gamesPlayed := some rec.gamesPlayed }] }
          else acc
        { acc with teamMatches := acc.teamMatches ++
            [{ name := rec.name, team := rec.team, similarity := none, gamesPlayed := none }] }
      else acc
    if namesSimilar yLower nbaName ∧ nbaTeam = tLower then
      .inl (rec, "FUZZY_MATCH")
    else
      .inr acc

/-- The scan over the remaining items. -/
def scanItems (yLower tLower : String) (acc : ScanAcc) :
    List (String × NBARecord) → (NBARecord × String) ⊕ ScanAcc
  | [] => .inr acc
  | (_, rec) :: rest =>
    match scanStep yLower tLower acc rec with
    | .inl hit => .inl hit
    | .inr acc => scanItems yLower tLower acc rest

/-- `NBAStatsFetcher.match_player_with_debug(yahoo_name, yahoo_team, nba_stats)`
with a caller-supplied stats dictionary: the cascade of (1) exact
`"name|team"` key, (2) case-insensitive name+team, (5) token-subset names on
the same team, plus the debug categorisation when nothing matches. -/
def matchPlayerWithDebug (yahooName yahooTeam : String)
    (nbaStats : List (String × NBARecord)) : Option NBARecord × MatchDebugInfo :=
  let debug : MatchDebugInfo :=
    { yahooName := yahooName, yahooTeam := yahooTeam, reason := none,
      suggestions := [], closestMatches := [] }
  if nbaStats = [] then (none, { debug with reason := some "NO_NBA_DATA" })
  else
    let key := yahooName ++ "|" ++ yahooTeam
    match nbaStats.lookup key with
    | some rec => (some rec, { debug with reason := some "EXACT_MATCH" })
    | none =>
      let yLower := sStrip (sLower yahooName)
      let tLower := sStrip (sLower yahooTeam)
      match scanItems yLower tLower ⟨[], [], []⟩ nbaStats with
      | .inl (rec, reason) => (some rec, { debug with reason := some reason })
      | .inr acc =>
        if acc.nameMatches ≠ [] then
          (none, { debug with reason := some "TEAM_MISMATCH", suggestions := acc.nameMatches })
        else if acc.similarNames ≠ [] then
          (none, { debug with
                   reason := some "NAME_MISMATCH"
                   closestMatches := (sortBySimDesc acc.similarNames).take 3 })
        else if acc.teamMatches ≠ [] then
          (none, { debug with
                   reason := some "NAME_MISMATCH_SAME_TEAM"
                   closestMatches := acc.teamMatches.take 5 })
        else (none, { debug with reason := some "NOT_IN_NBA_DATA" })

/-- `NBAStatsFetcher.match_player`: the match result without the debug info. -/
def matchPlayer (yahooName yahooTeam : String)
    (nbaStats : List (String × NBARecord)) : Option NBARecord :=
  (matchPlayerWithDebug yahooName yahooTeam nbaStats).1

/-! ## Concrete sample data used to evaluate the definitions -/

/-- A well-formed raw matchup payload in the Yahoo shape `parse_matchup_info`
expects (two teams under `['0']['teams']`). -/
def sampleRaw : YVal :=
  .dict [("week", .str "6"), ("week_start", .str "2025-11-24"),
    ("week_end", .str "2025-11-30"), ("status", .str "preevent"),
    ("0", .dict [("teams", .dict [
      ("0", .dict [("team", .list [.list [.dict [("team_key", .str "466.l.39285.t.2"),
        ("name", .str "NoMoneyNoHoney")]]])]),
      ("1", .dict [("team", .list [.list [.dict [("team_key", .str "466.l.39285.t.5"),
        ("name", .str "Foes")]]])])])])]

/-- The parse of `sampleRaw` for team `466.l.39285.t.2` (the second team is
the opponent). -/
def sampleParsed : ParsedMatchupInfo :=
  { week := some (.str "6"), weekStart := some (.str "2025-11-24")
    weekEnd := some (.str "2025-11-30"), status := some (.str "preevent")
    opponentName := some (.str "Foes"), opponentKey := some (.str "466.l.39285.t.5")
    opponent := some (some (.str "466.l.39285.t.5"), some (.str "Foes")) }

/-- Scheduler context where only week 5 has a fetchable matchup. -/
def sampleEnv : SchedulerEnv :=
  { currentWeek := 5, fetch := fun w => if w = 5 then some sampleRaw else none }

/-- Scheduler context where no week has a fetchable matchup. -/
def emptyEnv : SchedulerEnv := { currentWeek := 5, fetch := fun _ => none }

/-- A season-leaders record for a player whose name differs from the fantasy
platform's spelling by one letter. -/
def schroederRec : NBARecord :=
  { name := "Dennis Schroeder", team := "BKN", gamesPlayed := 20 }

/-! # Theorems -/

/-- **C3**: for every pair of team-stat maps with a non-zero opponent value,
the gap record stored for TO uses `((opp − my) / opp) × 100` (sign-flipped,
lower turnovers are favourable) while every other category uses
`((my − opp) / opp) × 100`; with `my = 55`, `opp = 60` the TO gap is `+8.3`
(and the same raw numbers for PTS give `−8.3`). -/
theorem C3_to_gap_sign_flip (myStats oppStats : List (String × ℚ)) (cat : String)
    (hcat : cat ∈ categories) (hopp : statGet oppStats cat ≠ 0) :
    (calculateCategoryGaps myStats oppStats).lookup cat =
      some (gapRecord cat (statGet myStats cat) (statGet oppStats cat)) ∧
    (cat = "TO" →
      (gapRecord cat (statGet myStats cat) (statGet oppStats cat)).gapPct =
        roundTo1 (((statGet oppStats cat - statGet myStats cat) /
          statGet oppStats cat) * 100)) ∧
    (cat ≠ "TO" →
      (gapRecord cat (statGet myStats cat) (statGet oppStats cat)).gapPct =
        roundTo1 (((statGet myStats cat - statGet oppStats cat) /
          statGet oppStats cat) * 100)) ∧
    (gapRecord "TO" 55 60).gapPct = 83/10 ∧
    (gapRecord "TO" 55 60).status = "WINNING" ∧
    (gapRecord "PTS" 55 60).gapPct = -(83/10) := by
  have e1 : (gapRecord "TO" 55 60).gapPct = 83/10 := by
    norm_num [gapRecord, rawGap, gapStatus, roundTo1, roundTo2, roundHalfEven]
  have e2 : (gapRecord "TO" 55 60).status = "WINNING" := by
    norm_num [gapRecord, rawGap, gapStatus, roundTo1, roundTo2, roundHalfEven]
  have e3 : (gapRecord "PTS" 55 60).gapPct = -(83/10) := by
    norm_num [gapRecord, rawGap, gapStatus, roundTo1, roundTo2, roundHalfEven,
      show ("PTS":String) ≠ "TO" from by decide]
  refine ⟨?_, ?_, ?_, e1, e2, e3⟩
  · simp only [categories] at hcat
    fin_cases hcat <;> rfl
  · intro h
    subst h
    simp [gapRecord, hopp, rawGap]
  · intro h
    simp [gapRecord, hopp, rawGap, h]

/-- Witness for C3 at `my = 55`, `opp = 60` on category TO. -/
theorem C3_to_gap_sign_flip_witness :
    (gapRecord "TO" (statGet [("TO", (55:ℚ))] "TO") (statGet [("TO", (60:ℚ))] "TO")).gapPct =
      roundTo1 (((statGet [("TO", (60:ℚ))] "TO" - statGet [("TO", (55:ℚ))] "TO") /
        statGet [("TO", (60:ℚ))] "TO") * 100) :=
  (C3_to_gap_sign_flip [("TO", 55)] [("TO", 60)] "TO" (by decide) (by decide)).2.1 rfl

/-- **C4**: a category whose opponent aggregate is exactly 0 gets a gap record
of exactly `0.0` with status UNKNOWN; the division branch of the source is
only reached under the `opp_val ≠ 0` guard, so no division by zero happens. -/
theorem C4_zero_opponent_unknown (myStats oppStats : List (String × ℚ)) (cat : String)
    (hcat : cat ∈ categories) (hopp : statGet oppStats cat = 0) :
    (calculateCategoryGaps myStats oppStats).lookup cat =
      some { myValue := statGet myStats cat, oppValue := 0, gapPct := 0,
             status := "UNKNOWN" } ∧
    (∀ (c : String) (my : ℚ), gapRecord c my 0 =
      { myValue := my, oppValue := 0, gapPct := 0, status := "UNKNOWN" }) := by
  constructor
  · have h1 : (calculateCategoryGaps myStats oppStats).lookup cat =
        some (gapRecord cat (statGet myStats cat) (statGet oppStats cat)) := by
      simp only [categories] at hcat
      fin_cases hcat <;> rfl
    rw [h1, hopp]
    simp [gapRecord]
  · intro c my
    simp [gapRecord]

/-- Witness for C4 with an empty opponent stat map on category TO. -/
theorem C4_zero_opponent_unknown_witness :
    (calculateCategoryGaps [("TO", (55:ℚ))] []).lookup "TO" =
      some { myValue := statGet [("TO", (55:ℚ))] "TO", oppValue := 0, gapPct := 0,
             status := "UNKNOWN" } :=
  (C4_zero_opponent_unknown [("TO", 55)] [] "TO" (by decide) (by decide)).1

/-- The status string of `_calculate_category_gaps` as a function of the raw
gap: the branch conditions of the source's `if`/`elif` chain. -/
theorem gapStatus_spec (g : ℚ) :
    (gapStatus g = "DOMINATING" ↔ 15 < g) ∧
    (gapStatus g = "WINNING" ↔ 0 < g ∧ g ≤ 15) ∧
    (gapStatus g = "COMPETITIVE" ↔ -15 < g ∧ g ≤ 0) ∧
    (gapStatus g = "LOSING" ↔ g ≤ -15) := by
  unfold gapStatus
  split_ifs with h1 h2 h3
  · exact ⟨iff_of_true rfl h1,
      iff_of_false (by decide) (fun hc => by linarith [hc.2]),
      iff_of_false (by decide) (fun hc => by linarith [hc.2]),
      iff_of_false (by decide) (fun hc => by linarith)⟩
  · exact ⟨iff_of_false (by decide) (fun hc => absurd hc h1),
      iff_of_true rfl ⟨h2, le_of_not_lt h1⟩,
      iff_of_false (by decide) (fun hc => by linarith [hc.2]),
      iff_of_false (by decide) (fun hc => by linarith)⟩
  · exact ⟨iff_of_false (by decide) (fun hc => absurd hc h1),
      iff_of_false (by decide) (fun hc => absurd hc.1 h2),
      iff_of_true rfl ⟨h3, le_of_not_lt h2⟩,
      iff_of_false (by decide) (fun hc => by linarith)⟩
  · exact ⟨iff_of_false (by decide) (fun hc => absurd hc h1),
      iff_of_false (by decide) (fun hc => absurd hc.1 h2),
      iff_of_false (by decide) (fun hc => absurd hc.1 h3),
      iff_of_true rfl (le_of_not_lt h3)⟩

/-- For a non-zero opponent value the stored status is the status of the raw
gap. -/
theorem gapRecord_status (cat : String) (myVal oppVal : ℚ) (hopp : oppVal ≠ 0) :
    (gapRecord cat myVal oppVal).status = gapStatus (rawGap cat myVal oppVal) := by
  simp [gapRecord, hopp]

/-- **C5** counterexample: the claim says a gap of exactly `+15%` has status
DOMINATING, but the source uses a strict `> 15` comparison: with
`my = 115`, `opp = 100` the gap is exactly 15 and the status is WINNING. -/
theorem C5_counterexample :
    (gapRecord "PTS" 115 100).gapPct ≥ 15 ∧
    (gapRecord "PTS" 115 100).status ≠ "DOMINATING" ∧
    (gapRecord "PTS" 115 100).status = "WINNING" := by
  refine ⟨?_, ?_, ?_⟩ <;>
    norm_num [gapRecord, rawGap, gapStatus, roundTo1, roundTo2, roundHalfEven,
      show ("PTS":String) ≠ "TO" from by decide]
  all_goals decide

/-- **C5 (amended)**: the status field uses strict thresholds on the raw gap:
DOMINATING iff gap > 15, WINNING iff 0 < gap ≤ 15, COMPETITIVE iff
−15 < gap ≤ 0, LOSING iff gap ≤ −15; in particular a gap of exactly +15 has
status WINNING (and a gap of exactly 0, COMPETITIVE). -/
theorem C5_status_strict_thresholds (cat : String) (myVal oppVal : ℚ)
    (hopp : oppVal ≠ 0) :
    ((gapRecord cat myVal oppVal).status = "DOMINATING" ↔
      15 < rawGap cat myVal oppVal) ∧
    ((gapRecord cat myVal oppVal).status = "WINNING" ↔
      0 < rawGap cat myVal oppVal ∧ rawGap cat myVal oppVal ≤ 15) ∧
    ((gapRecord cat myVal oppVal).status = "COMPETITIVE" ↔
      -15 < rawGap cat myVal oppVal ∧ rawGap cat myVal oppVal ≤ 0) ∧
    ((gapRecord cat myVal oppVal).status = "LOSING" ↔
      rawGap cat myVal oppVal ≤ -15) ∧
    (gapRecord "PTS" 115 100).status = "WINNING" ∧
    (gapRecord "PTS" 100 100).status = "COMPETITIVE" := by
  have e1 : (gapRecord "PTS" 115 100).status = "WINNING" := by
    rw [gapRecord_status "PTS" 115 100 (by norm_num)]
    rw [(gapStatus_spec (rawGap "PTS" 115 100)).2.1]
    norm_num [rawGap, show ("PTS":String) ≠ "TO" from by decide]
  have e2 : (gapRecord "PTS" 100 100).status = "COMPETITIVE" := by
    rw [gapRecord_status "PTS" 100 100 (by norm_num)]
    rw [(gapStatus_spec (rawGap "PTS" 100 100)).2.2.1]
    norm_num [rawGap, show ("PTS":String) ≠ "TO" from by decide]
  rw [gapRecord_status cat myVal oppVal hopp]
  exact ⟨(gapStatus_spec _).1, (gapStatus_spec _).2.1, (gapStatus_spec _).2.2.1,
    (gapStatus_spec _).2.2.2, e1, e2⟩

/-- Witness for C5 (amended) at `my = 115`, `opp = 100` on category PTS. -/
theorem C5_status_strict_thresholds_witness :
    (gapRecord "PTS" (115:ℚ) 100).status = "WINNING" :=
  (C5_status_strict_thresholds "PTS" 115 100 (by norm_num)).2.2.2.2.1

/-- **C1** counterexample: the claim anchors the date-math fallback at the
configured season start date 2024-10-21 (`constants.SEASON_START_DATE`), but
`get_current_week` hard-codes `datetime(2025, 10, 21)`: on 2025-12-01 the code
computes week 6 while the claimed formula yields 23. -/
theorem C1_counterexample :
    getCurrentWeekFallback (toOrdinal 2025 12 1) = 6 ∧
    claimedFallbackWeek (toOrdinal 2025 12 1) = 23 ∧
    getCurrentWeekFallback (toOrdinal 2025 12 1) ≠
      claimedFallbackWeek (toOrdinal 2025 12 1) := by
  refine ⟨by decide, by decide, by decide⟩

/-- **C1 (amended)**: when every network tier fails, `get_current_week`
computes `max(1, (today − season_start).days // 7 + 1)` clamped to [1, 23],
anchored at the hard-coded date 2025-10-21 (the 2025-26 season start), not at
`constants.SEASON_START_DATE` = 2024-10-21, which the scheduler never reads.
(The source's early `return 1` for dates before the anchor coincides with the
`max(1, ·)` of the formula, since a negative day count floor-divided by 7 is
at most −1.) -/
theorem C1_fallback_week_formula (todayOrd : ℕ) :
    getCurrentWeekFallback todayOrd =
      (min 23 (max 1 (((todayOrd : ℤ) - (toOrdinal 2025 10 21 : ℤ)) / 7 + 1))).toNat := by
  have hs : toOrdinal 2025 10 21 = 739545 := by decide
  simp only [getCurrentWeekFallback, hs]
  split_ifs with h <;> omega

/-- **C7**: the games multiplier is tier-gated by quality score: always 1.0
below quality 30; 1.0 / 1.05 / 1.10 for ≤2 / 3 / ≥4 games in [30, 45); and
1.0 / 1.15 / `min(1.30, 1.0 + (games−2)·0.15)` for ≤2 / 3 / ≥4 games at
quality ≥45.  Quality 29.9 with 5 games gives exactly 1.0, and quality 45.0
with 6 games gives exactly 1.30 (capped). -/
theorem C7_games_multiplier (q : ℚ) (g : ℕ) :
    (q < 30 → calculateGamesMultiplier g q = 1) ∧
    (30 ≤ q → q < 45 →
      (g ≤ 2 → calculateGamesMultiplier g q = 1) ∧
      (g = 3 → calculateGamesMultiplier g q = 105/100) ∧
      (4 ≤ g → calculateGamesMultiplier g q = 110/100)) ∧
    (45 ≤ q →
      (g ≤ 2 → calculateGamesMultiplier g q = 1) ∧
      (g = 3 → calculateGamesMultiplier g q = 115/100) ∧
      (4 ≤ g → calculateGamesMultiplier g q =
        min (130/100) (1 + ((g : ℚ) - 2) * (15/100)))) ∧
    calculateGamesMultiplier 5 (299/10) = 1 ∧
    calculateGamesMultiplier 6 45 = 130/100 := by
  refine ⟨?_, ?_, ?_, ?_, ?_⟩
  · intro h
    simp [calculateGamesMultiplier, TRASH_THRESHOLD, h]
  · intro h30 h45
    have hn30 : ¬ q < 30 := not_lt.mpr h30
    refine ⟨?_, ?_, ?_⟩
    · intro hg
      simp [calculateGamesMultiplier, TRASH_THRESHOLD, BORDERLINE_THRESHOLD, hn30, h45, hg]
    · intro hg
      subst hg
      simp [calculateGamesMultiplier, TRASH_THRESHOLD, BORDERLINE_THRESHOLD, hn30, h45]
    · intro hg
      have h2 : ¬ g ≤ 2 := by omega
      have h3 : g ≠ 3 := by omega
      simp [calculateGamesMultiplier, TRASH_THRESHOLD, BORDERLINE_THRESHOLD, hn30, h45,
        h2, h3]
  · intro h45
    have hn30 : ¬ q < 30 := not_lt.mpr (le_trans (by norm_num : (30:ℚ) ≤ 45) h45)
    have hn45 : ¬ q < 45 := not_lt.mpr h45
    refine ⟨?_, ?_, ?_⟩
    · intro hg
      simp [calculateGamesMultiplier, TRASH_THRESHOLD, BORDERLINE_THRESHOLD, hn30, hn45, hg]
    · intro hg
      subst hg
      simp [calculateGamesMultiplier, TRASH_THRESHOLD, BORDERLINE_THRESHOLD, hn30, hn45]
    · intro hg
      have h2 : ¬ g ≤ 2 := by omega
      have h3 : g ≠ 3 := by omega
      simp [calculateGamesMultiplier, TRASH_THRESHOLD, BORDERLINE_THRESHOLD, hn30, hn45,
        h2, h3]
  · norm_num [calculateGamesMultiplier, TRASH_THRESHOLD]
  · norm_num [calculateGamesMultiplier, TRASH_THRESHOLD, BORDERLINE_THRESHOLD]

/-- Witness for C7 at quality 29.9 with 5 games remaining. -/
theorem C7_games_multiplier_witness :
    calculateGamesMultiplier 5 (299/10) = 1 :=
  (C7_games_multiplier (299/10) 5).1 (by norm_num)

/-- **C8**: `should_look_ahead(date, cutoff_hour)` is true iff the date is a
Sunday (weekday 6) with hour-of-day at or past the cutoff; with cutoff 22,
Saturday 23:59 is false, Sunday 21:59 is false and Sunday 22:00 is true. -/
theorem C8_should_look_ahead (d : PyDateTime) (cutoffHour : ℕ) :
    (shouldLookAhead d cutoffHour = true ↔ d.weekday = 6 ∧ cutoffHour ≤ d.hour) ∧
    shouldLookAhead { weekday := 5, hour := 23, minute := 59 } 22 = false ∧
    shouldLookAhead { weekday := 6, hour := 21, minute := 59 } 22 = false ∧
    shouldLookAhead { weekday := 6, hour := 22, minute := 0 } 22 = true := by
  refine ⟨?_, by decide, by decide, by decide⟩
  constructor
  · intro h
    by_cases hw : d.weekday = 6
    · refine ⟨hw, ?_⟩
      by_cases hh : cutoffHour ≤ d.hour
      · exact hh
      · simp [shouldLookAhead, isSunday, hw, hh] at h
    · simp [shouldLookAhead, isSunday, hw] at h
  · rintro ⟨hw, hh⟩
    simp [shouldLookAhead, isSunday, hw, hh]

/-- **C6** counterexample: the claim says the final pipeline's free-agent
health filter is an injury-keyword substring match over
{OUT, O, INJ, IL, GTD, DTD}, which would keep a player whose status is NA;
but the orchestrator calls `PlayerFetcher.filter_healthy_players`, which
removes every player with a non-empty status — the NA player is removed. -/
theorem C6_counterexample :
    filterHealthyPlayers [{ name := "X", injuryStatus := some "NA" }] = [] ∧
    specKeywordFilter [{ name := "X", injuryStatus := some "NA" }] =
      [{ name := "X", injuryStatus := some "NA" }] := by
  constructor <;> rfl

/-- **C6 (amended)**: the orchestrator's free-agent fetch filters through
`PlayerFetcher.filter_healthy_players`: a player is kept iff its injury status
is absent or the empty string — i.e. removed iff the status is present and
non-empty; in particular a player with status NA is removed. -/
theorem C6_healthy_filter (players : List FetchedPlayer) (p : FetchedPlayer) :
    (p ∈ filterHealthyPlayers players ↔
      p ∈ players ∧ (p.injuryStatus = none ∨ p.injuryStatus = some "")) ∧
    (p.injuryStatus = some "NA" → p ∉ filterHealthyPlayers players) := by
  have hmain : p ∈ filterHealthyPlayers players ↔
      p ∈ players ∧ (p.injuryStatus = none ∨ p.injuryStatus = some "") := by
    rw [filterHealthyPlayers, List.mem_filter]
    cases hp : p.injuryStatus with
    | none => simp [injuryFalsy, hp]
    | some s => simp [injuryFalsy, hp]
  refine ⟨hmain, ?_⟩
  intro h hmem
  rcases (hmain.mp hmem).2 with h0 | h0 <;> rw [h] at h0 <;> simp at h0

/-- Witness for C6 (amended): the NA player is removed from its own
singleton list. -/
theorem C6_healthy_filter_witness :
    ({ name := "X", injuryStatus := some "NA" } : FetchedPlayer) ∉
      filterHealthyPlayers [{ name := "X", injuryStatus := some "NA" }] :=
  (C6_healthy_filter [{ name := "X", injuryStatus := some "NA" }]
    { name := "X", injuryStatus := some "NA" }).2 rfl

/-- The bucket sizes of `_classify_categories` sum to the number of input
categories: every category lands in exactly one bucket. -/
theorem classify15_length (gaps : List (String × GapRecord)) :
    (classifyCategories gaps).dominating.length +
    (classifyCategories gaps).winnable.length +
    (classifyCategories gaps).competitive.length +
    (classifyCategories gaps).losing.length = gaps.length := by
  induction gaps with
  | nil => rfl
  | cons hd tl ih =>
    obtain ⟨c, d⟩ := hd
    simp only [classifyCategories]
    split_ifs <;> simp only [List.length_cons] <;> omega

/-- Every entry of each bucket of `_classify_categories` satisfies that
bucket's gap range and carries its fixed strategy label. -/
theorem classify15_ranges (gaps : List (String × GapRecord)) :
    (∀ e ∈ (classifyCategories gaps).dominating, 15 ≤ e.gap ∧ e.strategy = "PROTECT") ∧
    (∀ e ∈ (classifyCategories gaps).winnable,
      0 ≤ e.gap ∧ e.gap < 15 ∧ e.strategy = "TARGET") ∧
    (∀ e ∈ (classifyCategories gaps).competitive,
      -15 < e.gap ∧ e.gap < 0 ∧ e.strategy = "IMPROVE") ∧
    (∀ e ∈ (classifyCategories gaps).losing, e.gap ≤ -15 ∧ e.strategy = "PUNT") := by
  induction gaps with
  | nil => exact ⟨by simp [classifyCategories], by simp [classifyCategories],
      by simp [classifyCategories], by simp [classifyCategories]⟩
  | cons hd tl ih =>
    obtain ⟨c, d⟩ := hd
    obtain ⟨ih1, ih2, ih3, ih4⟩ := ih
    simp only [classifyCategories]
    split_ifs with h1 h2 h3
    · refine ⟨?_, ih2, ih3, ih4⟩
      intro e he
      rcases List.mem_cons.mp he with rfl | he
      · exact ⟨h1, rfl⟩
      · exact ih1 e he
    · refine ⟨ih1, ?_, ih3, ih4⟩
      intro e he
      rcases List.mem_cons.mp he with rfl | he
      · exact ⟨h2.1, h2.2, rfl⟩
      · exact ih2 e he
    · refine ⟨ih1, ih2, ?_, ih4⟩
      intro e he
      rcases List.mem_cons.mp he with rfl | he
      · exact ⟨h3.2, h3.1, rfl⟩
      · exact ih3 e he
    · refine ⟨ih1, ih2, ih3, ?_⟩
      intro e he
      rcases List.mem_cons.mp he with rfl | he
      · push_neg at h1 h2 h3
        refine ⟨?_, rfl⟩
        rcases le_or_lt 0 d.gapPct with hpos | hneg
        · linarith [h2 hpos]
        · exact h3 hneg
      · exact ih4 e he

/-- A gaps entry with `0 ≤ gap_pct < 15` produces a TARGET entry in the
winnable bucket. -/
theorem classify15_winnable_mem (gaps : List (String × GapRecord))
    (cat : String) (rec : GapRecord) (hmem : (cat, rec) ∈ gaps)
    (h0 : 0 ≤ rec.gapPct) (h15 : rec.gapPct < 15) :
    ({ category := cat, gap := rec.gapPct, strategy := "TARGET" } : ClassEntry) ∈
      (classifyCategories gaps).winnable := by
  induction gaps with
  | nil => cases hmem
  | cons hd tl ih =>
    obtain ⟨c, d⟩ := hd
    rcases List.mem_cons.mp hmem with heq | htl
    · obtain ⟨rfl, rfl⟩ := Prod.mk.injEq .. ▸ heq
      simp only [classifyCategories]
      rw [if_neg (by exact fun hc => absurd hc (not_le.mpr h15)),
        if_pos ⟨h0, h15⟩]
      exact List.mem_cons_self _ _
    · have hin := ih htl
      simp only [classifyCategories]
      split_ifs <;> first
        | exact hin
        | exact List.mem_cons_of_mem _ hin

/-- **C10**: `_classify_categories` is a partition — the bucket sizes sum to
the number of categories and every bucket entry satisfies its range
(dominating gap ≥ 15, winnable 0 ≤ gap < 15, competitive −15 < gap < 0,
losing gap ≤ −15) with its fixed strategy label; a category whose opponent
aggregate was 0 (status UNKNOWN, gap 0.0) is classified, landing in the
winnable bucket with strategy TARGET. -/
theorem C10_classification_partition (gaps : List (String × GapRecord)) :
    ((classifyCategories gaps).dominating.length +
      (classifyCategories gaps).winnable.length +
      (classifyCategories gaps).competitive.length +
      (classifyCategories gaps).losing.length = gaps.length) ∧
    (∀ e ∈ (classifyCategories gaps).dominating, 15 ≤ e.gap ∧ e.strategy = "PROTECT") ∧
    (∀ e ∈ (classifyCategories gaps).winnable,
      0 ≤ e.gap ∧ e.gap < 15 ∧ e.strategy = "TARGET") ∧
    (∀ e ∈ (classifyCategories gaps).competitive,
      -15 < e.gap ∧ e.gap < 0 ∧ e.strategy = "IMPROVE") ∧
    (∀ e ∈ (classifyCategories gaps).losing, e.gap ≤ -15 ∧ e.strategy = "PUNT") ∧
    (∀ (myStats oppStats : List (String × ℚ)) (cat : String), cat ∈ categories →
      statGet oppStats cat = 0 →
      ({ category := cat, gap := 0, strategy := "TARGET" } : ClassEntry) ∈
        (classifyCategories (calculateCategoryGaps myStats oppStats)).winnable) := by
  obtain ⟨r1, r2, r3, r4⟩ := classify15_ranges gaps
  refine ⟨classify15_length gaps, r1, r2, r3, r4, ?_⟩
  intro myStats oppStats cat hcat hopp
  have hrec : gapRecord cat (statGet myStats cat) (statGet oppStats cat) =
      { myValue := statGet myStats cat, oppValue := 0, gapPct := 0,
        status := "UNKNOWN" } := by
    rw [hopp]
    simp [gapRecord]
  have hmem : (cat, gapRecord cat (statGet myStats cat) (statGet oppStats cat)) ∈
      calculateCategoryGaps myStats oppStats := by
    simp only [calculateCategoryGaps]
    exact List.mem_map_of_mem _ hcat
  have h := classify15_winnable_mem (calculateCategoryGaps myStats oppStats) cat _ hmem
    (by rw [hrec]) (by rw [hrec]; norm_num)
  rw [hrec] at h
  exact h

/-- Witness for C10: with empty stat maps every opponent aggregate is 0, and
TO lands in the winnable bucket with strategy TARGET. -/
theorem C10_classification_partition_witness :
    ({ category := "TO", gap := 0, strategy := "TARGET" } : ClassEntry) ∈
      (classifyCategories (calculateCategoryGaps [] [])).winnable :=
  (C10_classification_partition []).2.2.2.2.2 [] [] "TO" (by decide) rfl

/-- **C2**: with look-ahead in effect and no matchup for week
`current_week + 1`, `get_optimal_matchup` retries the current week: on a
successful retry the result has `week = current_week` and
`is_lookahead = false` with the parsed matchup; only if the retry also fails
does it return a result with no matchup and an error message (still with
`week = current_week`, `is_lookahead = false`). -/
theorem C2_lookahead_fallback (env : SchedulerEnv) (d : PyDateTime)
    (cutoffHour : ℕ) (teamKey : String)
    (hl : shouldLookAhead d cutoffHour = true)
    (h1 : env.fetch (env.currentWeek + 1) = none) :
    (∀ m p, env.fetch env.currentWeek = some m →
      parseMatchupInfo m teamKey = some p →
      getOptimalMatchup env d cutoffHour teamKey =
        some { week := env.currentWeek, isLookahead := false, currentDate := some d,
               matchup := some p, error := none }) ∧
    (env.fetch env.currentWeek = none →
      getOptimalMatchup env d cutoffHour teamKey =
        some { week := env.currentWeek, isLookahead := false, currentDate := none,
               matchup := none, error := some "Could not fetch matchup data" }) := by
  have htw : getTargetWeek env d cutoffHour = env.currentWeek + 1 := by
    simp [getTargetWeek, hl]
  constructor
  · intro m p hm hp
    simp only [getOptimalMatchup, htw, hl, h1, Nat.add_sub_cancel, hm, hp]
  · intro hm
    simp only [getOptimalMatchup, htw, hl, h1, Nat.add_sub_cancel, hm]

/-- Witness for C2: current week 5 on a Sunday at 22:00 with cutoff 22, week 6
unavailable, week 5 available — the fallback returns week 5 without the
look-ahead flag. -/
theorem C2_lookahead_fallback_witness :
    getOptimalMatchup sampleEnv { weekday := 6, hour := 22, minute := 0 } 22
        "466.l.39285.t.2" =
      some { week := 5, isLookahead := false,
             currentDate := some { weekday := 6, hour := 22, minute := 0 },
             matchup := some sampleParsed, error := none } :=
  (C2_lookahead_fallback sampleEnv { weekday := 6, hour := 22, minute := 0 } 22
    "466.l.39285.t.2" (by decide) rfl).1 sampleRaw sampleParsed rfl rfl

/-- The match cascade on a one-record stats dictionary whose record fails the
exact and case-insensitive tiers, sits on the same team with trigram
similarity above 0.7, but fails the token-subset check: no record is
returned; the candidate only appears in the debug `closest_matches` under
reason NAME_MISMATCH. -/
theorem matchPlayer_single_similar (yName yTeam k : String) (rec : NBARecord)
    (hkey : ¬(yName ++ "|" ++ yTeam = k))
    (hname : ¬(sStrip (sLower rec.name) = sStrip (sLower yName)))
    (hteam : sStrip (sLower rec.team) = sStrip (sLower yTeam))
    (hsim : calculateNameSimilarity (sStrip (sLower yName))
      (sStrip (sLower rec.name)) > 7/10)
    (hns : namesSimilar (sStrip (sLower yName)) (sStrip (sLower rec.name)) = false) :
    matchPlayerWithDebug yName yTeam [(k, rec)] =
      (none,
        { yahooName := yName
          yahooTeam := yTeam
          reason := some "NAME_MISMATCH"
          suggestions := []
          closestMatches := [{
            name := rec.name
            team := rec.team
            similarity := some (calculateNameSimilarity (sStrip (sLower yName))
              (sStrip (sLower rec.name)))
            gamesPlayed := some rec.gamesPlayed }] }) := by
  have hcons : (([(k, rec)] : List (String × NBARecord)) = []) = False := by simp
  have hbeq : (yName ++ "|" ++ yTeam == k) = false := beq_eq_false_iff_ne.mpr hkey
  simp only [matchPlayerWithDebug, hcons, if_false, hbeq, List.lookup]
  simp only [scanItems, scanStep]
  rw [if_neg (fun hc => hname hc.1), if_neg hname, if_pos hteam, if_pos hsim,
    if_neg (fun hc => by simp [hns] at hc)]
  simp [sortBySimDesc, insertBySimDesc]

/-- **C9** counterexample: "Dennis Schroder" against a same-team record named
"Dennis Schroeder" has trigram similarity 13/18 > 0.7 after the exact and
case-insensitive tiers fail, yet `match_player` returns no record — the
similarity tier only populates the debug `closest_matches` (reason
NAME_MISMATCH); it never returns the candidate. -/
theorem C9_counterexample :
    calculateNameSimilarity "dennis schroder" "dennis schroeder" > 7/10 ∧
    matchPlayer "Dennis Schroder" "BKN" [("Dennis Schroeder|BKN", schroederRec)] =
      none ∧
    (matchPlayerWithDebug "Dennis Schroder" "BKN"
      [("Dennis Schroeder|BKN", schroederRec)]).2.reason = some "NAME_MISMATCH" := by
  have hsim : calculateNameSimilarity "dennis schroder" "dennis schroeder" = 13/18 := rfl
  have hgt : calculateNameSimilarity "dennis schroder" "dennis schroeder" > 7/10 := by
    rw [hsim]
    norm_num
  have heq := matchPlayer_single_similar "Dennis Schroder" "BKN" "Dennis Schroeder|BKN"
    schroederRec (by decide) (by decide) rfl hgt (by decide)
  exact ⟨hgt, by simp [matchPlayer, heq], by simp [heq]⟩

/-- **C9 (amended)**: when the exact and case-insensitive tiers fail, a
same-team candidate with trigram similarity above 0.7 is *not* returned as the
matched record unless it also passes the token-subset `_names_similar` check:
`match_player` returns no record and the candidate is only surfaced in the
debug information's `closest_matches` under reason NAME_MISMATCH; the tier
that actually returns a record is the token-subset heuristic. -/
theorem C9_similarity_debug_only (yName yTeam k : String) (rec : NBARecord)
    (hkey : ¬(yName ++ "|" ++ yTeam = k))
    (hname : ¬(sStrip (sLower rec.name) = sStrip (sLower yName)))
    (hteam : sStrip (sLower rec.team) = sStrip (sLower yTeam))
    (hsim : calculateNameSimilarity (sStrip (sLower yName))
      (sStrip (sLower rec.name)) > 7/10)
    (hns : namesSimilar (sStrip (sLower yName)) (sStrip (sLower rec.name)) = false) :
    matchPlayer yName yTeam [(k, rec)] = none ∧
    (matchPlayerWithDebug yName yTeam [(k, rec)]).2.reason = some "NAME_MISMATCH" ∧
    (matchPlayerWithDebug yName yTeam [(k, rec)]).2.closestMatches =
      [{ name := rec.name
         team := rec.team
         similarity := some (calculateNameSimilarity (sStrip (sLower yName))
           (sStrip (sLower rec.name)))
         gamesPlayed := some rec.gamesPlayed }] := by
  have heq := matchPlayer_single_similar yName yTeam k rec hkey hname hteam hsim hns
  exact ⟨by simp [matchPlayer, heq], by simp [heq], by simp [heq]⟩

/-- Witness for C9 (amended) at the Schroder/Schroeder instance. -/
theorem C9_similarity_debug_only_witness :
    matchPlayer "Dennis Schroder" "BKN" [("Dennis Schroeder|BKN", schroederRec)] =
      none :=
  (C9_similarity_debug_only "Dennis Schroder" "BKN" "Dennis Schroeder|BKN"
    schroederRec (by decide) (by decide) rfl
    (by rw [show calculateNameSimilarity (sStrip (sLower "Dennis Schroder"))
        (sStrip (sLower (schroederRec.name))) = 13/18 from rfl]; norm_num)
    (by decide)).1

end FantasyBBall
